import Mathlib

/-!
A shallow embedding of `src/verbosity.py` (the `Verbosity` class, its metaclass
guard, and the `printer` decorator), together with theorems settling the
specification claims about it.

Modelling conventions:
  * Python objects that can appear as the verbosity level or as class-attribute
    values are `PyObj` (integers, `None`, strings).
  * Python exceptions relevant to this module are `PyExc`.
  * The process-wide class state is `VerbState`: the metaclass gate
    `_is_internal_op`, the list `_verbosities`, the dict `_verbositiesmap`
    (whose keys and values are names or integers, `PKey`), and the class
    attribute dictionary (which holds the level constants and the `level`
    attribute itself; `setattr`/`delattr` act on it).
  * Dicts are association lists with Python dict semantics: update replaces in
    place, otherwise appends; `pop` removes the entry.
  * Every operation returns `POut`: a result (normal value or raised
    exception, Python exceptions do not roll state back), the post state, and
    the ordered list of sink events (`write`/`flush`) it produced.
-/

inductive PyObj where
  | vint : Int → PyObj
  | vnone : PyObj
  | vstr : String → PyObj
deriving DecidableEq, Repr

inductive PyExc where
  | typeError : String → PyExc
  | valueError : String → PyExc
  | attributeError : PyExc
  | keyError : PyExc
  | indexError : PyExc
deriving DecidableEq, Repr

/-- Keys (and values) of the bidirectional `_verbositiesmap` dict: either a
level name (string) or a level value (integer). -/
inductive PKey where
  | ks : String → PKey
  | ki : Int → PKey
deriving DecidableEq, Repr

inductive OutEvent where
  | write : String → OutEvent
  | flushEv : OutEvent
deriving DecidableEq, Repr

/-- Python dict lookup `d.get(k, None)` / `d[k]` on an association list. -/
def dget {α β : Type} [DecidableEq α] : List (α × β) → α → Option β
  | [], _ => none
  | p :: rest, k => if p.1 = k then some p.2 else dget rest k

/-- Python dict assignment / `update`: replace in place if the key is present,
otherwise append at the end (insertion order). -/
def dput {α β : Type} [DecidableEq α] : List (α × β) → α → β → List (α × β)
  | [], k, v => [(k, v)]
  | p :: rest, k, v => if p.1 = k then (k, v) :: rest else p :: dput rest k v

/-- Python dict `pop`: remove the (first) entry with the key; no-op if absent
(the caller catches `KeyError`). -/
def dpop {α β : Type} [DecidableEq α] : List (α × β) → α → List (α × β)
  | [], _ => []
  | p :: rest, k => if p.1 = k then rest else p :: dpop rest k

/-- Python `list.remove`: drop the first occurrence; no-op if absent
(the caller catches `ValueError`). -/
def removeFirst : List Int → Int → List Int
  | [], _ => []
  | x :: rest, k => if x = k then rest else x :: removeFirst rest k

/-- The state of the `Verbosity` class (process-wide singleton). -/
structure VerbState where
  /-- `VerbosityMeta._is_internal_op`, the mutation gate. -/
  isInternalOp : Bool
  /-- `Verbosity._verbosities`. -/
  verbosities : List Int
  /-- `Verbosity._verbositiesmap` (both directions in one dict). -/
  vmap : List (PKey × PKey)
  /-- The class attribute dict: level constants and the `level` attribute. -/
  attrs : List (String × PyObj)
deriving DecidableEq, Repr

inductive PyResult where
  | ok : PyObj → PyResult
  | exc : PyExc → PyResult
deriving DecidableEq, Repr

structure POut where
  res : PyResult
  st : VerbState
  ev : List OutEvent
deriving DecidableEq, Repr

abbrev PyProc := VerbState → POut

def openGuard (s : VerbState) : VerbState := { s with isInternalOp := true }

def closeGuard (s : VerbState) : VerbState := { s with isInternalOp := false }

def setLevelAttr (s : VerbState) (v : PyObj) : VerbState :=
  { s with attrs := dput s.attrs "level" v }

/-- `VerbosityMeta.__setattr__`: raises `ValueError` while the gate is closed,
otherwise writes the attribute. -/
def checkedSetattr (name : String) (v : PyObj) : PyProc := fun s =>
  if s.isInternalOp = false then
    ⟨.exc (.valueError "Can\x27t manually modify Verbosity state"), s, []⟩
  else
    ⟨.ok .vnone, { s with attrs := dput s.attrs name v }, []⟩

/-- `delattr(cls, name)`: removes the attribute, `AttributeError` if absent
(`__delattr__` is not intercepted by the metaclass). -/
def delattrProc (name : String) : PyProc := fun s =>
  if (dget s.attrs name).isSome then
    ⟨.ok .vnone, { s with attrs := dpop s.attrs name }, []⟩
  else ⟨.exc .attributeError, s, []⟩

/-- `_safe_verbosity_modify`: opens the gate, runs the body, closes the gate
and discards the body's return value (the wrapper has no `return` statement).
There is no `try`/`finally`, so when the body raises, the gate is left open
and the exception propagates. -/
def safeModify (f : PyProc) : PyProc := fun s =>
  let o := f (openGuard s)
  match o.res with
  | .ok _ => ⟨.ok .vnone, { o.st with isInternalOp := false }, o.ev⟩
  | .exc e => ⟨.exc e, o.st, o.ev⟩

/-- An argument passed to `set`/`add`/`remove`: a string, an int, or a value
of any other type (which trips the `isinstance` checks). -/
inductive PArg where
  | pstr : String → PArg
  | pint : Int → PArg
  | pother : PArg
deriving DecidableEq, Repr

def pkeyToObj : PKey → PyObj
  | .ki n => .vint n
  | .ks str => .vstr str

/-- The object assigned by `set`'s string branch: the dict lookup result,
which is Python `None` when the name is unregistered. -/
def optKeyToObj : Option PKey → PyObj
  | none => .vnone
  | some k => pkeyToObj k

/-- `cls.level`, read through the attribute dict. -/
def activeLevel (s : VerbState) : Option PyObj := dget s.attrs "level"

namespace Verbosity

/-- The state at module import: built-in levels NONE/INFO/DEBUG/TOTAL, the
bidirectional map, `level = NONE`, gate closed. -/
def initState : VerbState :=
  { isInternalOp := false
    verbosities := [0, 1, 2, 3]
    vmap := [(.ks "NONE", .ki 0), (.ks "INFO", .ki 1), (.ks "DEBUG", .ki 2),
             (.ks "TOTAL", .ki 3), (.ki 0, .ks "NONE"), (.ki 1, .ks "INFO"),
             (.ki 2, .ks "DEBUG"), (.ki 3, .ks "TOTAL")]
    attrs := [("NONE", .vint 0), ("INFO", .vint 1), ("DEBUG", .vint 2),
              ("TOTAL", .vint 3), ("level", .vint 0)] }

/-- `Verbosity.get_verbosities`: a snapshot of `_verbositiesmap`. -/
def get_verbosities (s : VerbState) : List (PKey × PKey) := s.vmap

/-- Body of `Verbosity.set` (before the `_safe_verbosity_modify` wrapping). -/
def setBody (new_verbosity : PArg) (verify : Bool) : PyProc := fun s =>
  match new_verbosity with
  | .pstr name =>
    let vb := dget s.vmap (.ks name)
    if verify = true ∧ vb = none then ⟨.ok .vnone, s, []⟩
    else
      match dget s.attrs "level" with
      | none => ⟨.exc .attributeError, s, []⟩
      | some v0 =>
        match checkedSetattr "level" (optKeyToObj vb) s with
        | ⟨.ok _, s₁, _⟩ => ⟨.ok v0, s₁, []⟩
        | ⟨.exc e, s₁, _⟩ => ⟨.exc e, s₁, []⟩
  | .pint n =>
    if verify = true ∧ s.verbosities.count n = 0 then ⟨.ok .vnone, s, []⟩
    else
      match dget s.attrs "level" with
      | none => ⟨.exc .attributeError, s, []⟩
      | some v0 =>
        match checkedSetattr "level" (.vint n) s with
        | ⟨.ok _, s₁, _⟩ => ⟨.ok v0, s₁, []⟩
        | ⟨.exc e, s₁, _⟩ => ⟨.exc e, s₁, []⟩
  | .pother => ⟨.exc (.typeError "new_verbosity has to be int or str"), s, []⟩

/-- `Verbosity.set` as seen by callers (wrapped by `_safe_verbosity_modify`,
which discards the body's return value). -/
def set (new_verbosity : PArg) (verify : Bool) : PyProc :=
  safeModify (setBody new_verbosity verify)

/-- Body of `Verbosity.add`. -/
def addBody (verbosity_name verbosity_level : PArg) : PyProc := fun s =>
  match verbosity_name, verbosity_level with
  | .pstr name, .pint lvl =>
    if (dget s.vmap (.ks name)).isSome then ⟨.ok .vnone, s, []⟩
    else if (dget s.vmap (.ki lvl)).isSome then ⟨.ok .vnone, s, []⟩
    else if lvl = -1 then ⟨.ok .vnone, s, []⟩
    else
      match checkedSetattr name (.vint lvl) s with
      | ⟨.exc e, s₁, _⟩ => ⟨.exc e, s₁, []⟩
      | ⟨.ok _, s₁, _⟩ =>
        let s₂ := { s₁ with verbosities := s₁.verbosities ++ [lvl] }
        let s₃ := { s₂ with
          vmap := dput (dput s₂.vmap (.ks name) (.ki lvl)) (.ki lvl) (.ks name) }
        ⟨.ok .vnone, s₃, []⟩
  | _, _ =>
    ⟨.exc (.typeError "verbosity_name has to be str, verbosity_level has to be int"), s, []⟩

def add (verbosity_name verbosity_level : PArg) : PyProc :=
  safeModify (addBody verbosity_name verbosity_level)

/-- Body of `Verbosity._del_key`: each removal is wrapped in
`try ... except: pass`, so absence is a silent no-op. -/
def delKeyBody (table_key_int table_key_str : PKey) : PyProc := fun s =>
  let vs := match table_key_int with
    | .ki n => removeFirst s.verbosities n
    | .ks _ => s.verbosities
  let m₁ := dpop s.vmap table_key_int
  let m₂ := dpop m₁ table_key_str
  ⟨.ok .vnone, { s with verbosities := vs, vmap := m₂ }, []⟩

/-- `Verbosity._del_key` (itself `_safe_verbosity_modify`-wrapped, so it
closes the gate when it returns — even when called from inside `remove`). -/
def del_key (table_key_int table_key_str : PKey) : PyProc :=
  safeModify (delKeyBody table_key_int table_key_str)

/-- Body of `Verbosity.remove`.

String branch: `delattr` then `val = map[name]` then `_del_key(val, name)`,
with `AttributeError` caught and anything else re-raised (so a missing map
entry after a successful `delattr` propagates as `KeyError`).
Integer branch: `delattr(cls, map[v])` then `_del_key(v, map[v])` with
`AttributeError` and `KeyError` caught. An argument of any other type matches
no branch and the call silently returns. -/
def removeBody (verbosity : PArg) : PyProc := fun s =>
  match verbosity with
  | .pstr name =>
    if (dget s.attrs name).isNone then ⟨.ok .vnone, s, []⟩
    else
      let s₁ : VerbState := { s with attrs := dpop s.attrs name }
      match dget s₁.vmap (.ks name) with
      | none => ⟨.exc .keyError, s₁, []⟩
      | some val =>
        let o := del_key val (.ks name) s₁
        match o.res with
        | .ok _ => ⟨.ok .vnone, o.st, o.ev⟩
        | .exc e => ⟨.exc e, o.st, o.ev⟩
  | .pint v =>
    match dget s.vmap (.ki v) with
    | none => ⟨.ok .vnone, s, []⟩
    | some nameK =>
      match nameK with
      | .ki _ => ⟨.exc (.typeError "attribute name must be string"), s, []⟩
      | .ks n =>
        if (dget s.attrs n).isNone then ⟨.ok .vnone, s, []⟩
        else
          let s₁ : VerbState := { s with attrs := dpop s.attrs n }
          match dget s₁.vmap (.ki v) with
          | none => ⟨.ok .vnone, s₁, []⟩
          | some nameK₂ =>
            let o := del_key (.ki v) nameK₂ s₁
            match o.res with
            | .ok _ => ⟨.ok .vnone, o.st, o.ev⟩
            | .exc e => ⟨.exc e, o.st, o.ev⟩
  | .pother => ⟨.ok .vnone, s, []⟩

def remove (verbosity : PArg) : PyProc := safeModify (removeBody verbosity)

end Verbosity

/-!
The message dispatcher `Verbosity._handle_msg` and the decorator
`Verbosity.printer`.

A format string is modelled as a template: a list of literal pieces and
positional placeholders, so that both the template's own text (what Python's
`len(msg)` measures) and the substituted output (what `msg.format(*args)`
produces) are available.
-/

inductive FmtPiece where
  | flit : String → FmtPiece
  | farg : Nat → FmtPiece
deriving DecidableEq, Repr

abbrev Template := List FmtPiece

/-- The template's source text: a placeholder `farg i` reads as the
brace-delimited index, a literal reads as itself. -/
def renderPiece : FmtPiece → String
  | .flit str => str
  | .farg i => "\x7b" ++ toString i ++ "\x7d"

def renderT (t : Template) : String := String.join (t.map renderPiece)

/-- Python `str()` of the objects a format argument can be. -/
def pyObjStr : PyObj → String
  | .vint n => toString n
  | .vnone => "None"
  | .vstr str => str

/-- `msg.format(*args)`: substitute positional arguments; a placeholder index
past the end of the arguments raises `IndexError`. -/
def formatT : Template → List PyObj → Except PyExc String
  | [], _ => .ok ""
  | .flit str :: rest, args =>
    match formatT rest args with
    | .ok tail => .ok (str ++ tail)
    | .error e => .error e
  | .farg i :: rest, args =>
    match args[i]? with
    | none => .error .indexError
    | some o =>
      match formatT rest args with
      | .ok tail => .ok (pyObjStr o ++ tail)
      | .error e => .error e

/-- A `msg_*` argument of `printer` / `_handle_msg`.

  * `mstr`: a format string (template).
  * `mcall`: a callable; invoked as `msg(e)` in an exception context and
    `msg()` otherwise — the payload receives that optional exception and
    yields a result and its own sink events.
  * `mtupleParams`: the tuple form `(Verbosity.PARAMETERS, f)`; `f` receives
    the optional exception and the call-site arguments.
  * `mtupleFixed`: the tuple form `(f, *fixed)` with the fixed arguments
    baked into the payload; it receives only the optional exception.
  * `mnone`: Python `None` (no message).
  * `mbad`: a value of any other type (trips the final `TypeError`). -/
inductive Msg where
  | mstr : Template → Msg
  | mcall : (Option PyExc → PyResult × List OutEvent) → Msg
  | mtupleParams : (Option PyExc → List PyObj → PyResult × List OutEvent) → Msg
  | mtupleFixed : (Option PyExc → PyResult × List OutEvent) → Msg
  | mnone : Msg
  | mbad : Msg

/-- `Verbosity._handle_msg`. The callable branch discards the callable's
return value (the Python branch has no `return`); the tuple branches return
the invoked function's value; the string branch formats, writes, appends
`end` only when the template text `msg` is non-empty (`len(msg) > 0`), and
flushes when asked. It does not touch the class state. -/
def handleMsg (msg : Msg) (args : List PyObj) (e : Option PyExc)
    (endStr : String) (flush : Bool) : PyResult × List OutEvent :=
  match msg with
  | .mcall f =>
    match f e with
    | (.ok _, ev) => (.ok .vnone, ev)
    | (.exc ex, ev) => (.exc ex, ev)
  | .mstr t =>
    match formatT t args with
    | .error ex => (.exc ex, [])
    | .ok outStr =>
      (.ok .vnone,
        [OutEvent.write outStr]
          ++ (if (renderT t).length > 0 then [OutEvent.write endStr] else [])
          ++ (if flush = true then [OutEvent.flushEv] else []))
  | .mtupleParams f => f e args
  | .mtupleFixed f => f e
  | .mnone => (.ok .vnone, [])
  | .mbad => (.exc (.typeError "msg has to be callable, str or tuple"), [])

/-- A `DecoratorBinding`: the arguments `printer` was applied with.

`out_end` is recorded but has no effect: the wrapper passes it to
`_handle_msg` by the keyword `out_end`, which lands in `**kwargs`, so
`_handle_msg`'s `end` parameter always keeps its default `"\n"`.

`rethrow` is a `nonlocal` of the closure in Python and the normalized value
persists across calls; the model is per-call, which agrees with the code on
every first call of a wrapper. -/
structure Binding where
  verb : Int
  msg_before : Msg
  msg_after : Msg
  msg_except : Msg
  rethrow : Option Bool
  bubble : Bool
  out_end : String
  flush : Bool

/-- A wrapped (decorated) user function: receives the call-site arguments and
the class state, returns a value or raises, possibly mutating the state. -/
abbrev PyFun := List PyObj → VerbState → PyResult × VerbState

/-- `verb == cls.level` — an `int` compares equal only to the same `int`. -/
def pyEqIntObj (n : Int) : PyObj → Bool
  | .vint m => n == m
  | _ => false

namespace Verbosity

/-- Body of the `wrapper` closure inside `Verbosity.printer` (before its
`_safe_verbosity_modify` wrapping): the match check, the `rethrow`
normalization, the before/call/after/except sequence, and the
`bubble` suspension. The `rethrow` type test can only fail for values that a
typed `Option Bool` cannot represent, so it has no failing branch here. -/
def wrapperBody (b : Binding) (func : PyFun) (args : List PyObj) : PyProc := fun s =>
  match dget s.attrs "level" with
  | none => ⟨.exc .attributeError, s, []⟩
  | some lvl =>
    if pyEqIntObj b.verb lvl then
      let rt : Option Bool :=
        match b.msg_except with
        | .mnone => some b.rethrow.isSome
        | _ => b.rethrow
      match handleMsg b.msg_before args none "\n" b.flush with
      | (.exc e, ev) => ⟨.exc e, s, ev⟩
      | (.ok _, evBefore) =>
        let tryOut : VerbState ⊕ (PyExc × VerbState) :=
          match dget s.attrs "level" with
          | none => .inr (.attributeError, s)
          | some v0 =>
            let step1 : PyResult × VerbState :=
              if b.bubble = false then
                match checkedSetattr "level" (.vint (-1)) s with
                | ⟨.ok _, s₁, _⟩ => (.ok .vnone, s₁)
                | ⟨.exc e, s₁, _⟩ => (.exc e, s₁)
              else (.ok .vnone, s)
            match step1 with
            | (.exc e, s₁) => .inr (e, s₁)
            | (.ok _, s₁) =>
              match func args s₁ with
              | (.exc e, s₂) => .inr (e, s₂)
              | (.ok _, s₂) =>
                match checkedSetattr "level" v0 s₂ with
                | ⟨.ok _, s₃, _⟩ => .inl s₃
                | ⟨.exc e, s₃, _⟩ => .inr (e, s₃)
        match tryOut with
        | .inl sOk =>
          match handleMsg b.msg_after args none "\n" b.flush with
          | (.ok _, evA) => ⟨.ok .vnone, sOk, evBefore ++ evA⟩
          | (.exc e, evA) => ⟨.exc e, sOk, evBefore ++ evA⟩
        | .inr (e, sE) =>
          match handleMsg b.msg_except args (some e) "\n" b.flush with
          | (.exc e₂, evX) => ⟨.exc e₂, sE, evBefore ++ evX⟩
          | (.ok _, evX) =>
            if rt = some true then ⟨.exc e, sE, evBefore ++ evX⟩
            else ⟨.ok .vnone, sE, evBefore ++ evX⟩
    else
      match func args s with
      | (.ok _, s') => ⟨.ok .vnone, s', []⟩
      | (.exc e, s') => ⟨.exc e, s', []⟩

/-- A call to a function decorated by `Verbosity.printer(verb, ...)`: the
wrapper runs under `_safe_verbosity_modify`, so its return value (the wrapped
function's result included) is discarded and the gate is toggled around it. -/
def printer (b : Binding) (func : PyFun) (args : List PyObj) : PyProc :=
  safeModify (wrapperBody b func args)

end Verbosity

/-! Helper lemmas about the dict model and the guard wrapper. -/

theorem dget_dput_self {α β : Type} [DecidableEq α] (d : List (α × β)) (k : α) (v : β) :
    dget (dput d k v) k = some v := by
  induction d with
  | nil => simp [dget, dput]
  | cons p rest ih =>
    by_cases h : p.1 = k
    · simp [dput, dget, h]
    · simp [dput, dget, h, ih]

theorem dget_dput_ne {α β : Type} [DecidableEq α] (d : List (α × β)) (k k' : α) (v : β)
    (h : ¬ k = k') : dget (dput d k v) k' = dget d k' := by
  induction d with
  | nil => simp [dget, dput, h]
  | cons p rest ih =>
    by_cases hp : p.1 = k
    · simp [dput, dget, hp, h]
    · simp only [dput, dget, if_neg hp]
      by_cases hp' : p.1 = k'
      · simp [dget, hp']
      · simp [dget, hp', ih]

theorem dput_eq_append {α β : Type} [DecidableEq α] (d : List (α × β)) (k : α) (v : β)
    (h : dget d k = none) : dput d k v = d ++ [(k, v)] := by
  induction d with
  | nil => simp [dput]
  | cons p rest ih =>
    by_cases hp : p.1 = k
    · simp [dget, hp] at h
    · simp only [dget, if_neg hp] at h
      simp [dput, hp, ih h]

theorem dget_append_left_none {α β : Type} [DecidableEq α] (d₁ d₂ : List (α × β)) (k : α)
    (h : dget d₁ k = none) : dget (d₁ ++ d₂) k = dget d₂ k := by
  induction d₁ with
  | nil => simp
  | cons p rest ih =>
    by_cases hp : p.1 = k
    · simp [dget, hp] at h
    · simp only [dget, if_neg hp] at h
      simp [dget, hp, ih h]

theorem dpop_append_left_none {α β : Type} [DecidableEq α] (d₁ d₂ : List (α × β)) (k : α)
    (h : dget d₁ k = none) : dpop (d₁ ++ d₂) k = d₁ ++ dpop d₂ k := by
  induction d₁ with
  | nil => simp [dpop]
  | cons p rest ih =>
    by_cases hp : p.1 = k
    · simp [dget, hp] at h
    · simp only [dget, if_neg hp] at h
      simp [dpop, hp, ih h]

theorem safeModify_ok_guard (f : PyProc) (s : VerbState) (o : PyObj)
    (h : (safeModify f s).res = .ok o) : (safeModify f s).st.isInternalOp = false := by
  unfold safeModify at h ⊢
  cases hr : (f (openGuard s)).res with
  | ok w => simp [hr]
  | exc e => simp [hr] at h

theorem handleMsg_mnone (args : List PyObj) (e : Option PyExc) (endStr : String)
    (fl : Bool) : handleMsg .mnone args e endStr fl = (.ok .vnone, []) := rfl

theorem safeModify_of_ok (f : PyProc) (s st' : VerbState) (o : PyObj) (ev : List OutEvent)
    (h : f (openGuard s) = ⟨.ok o, st', ev⟩) :
    safeModify f s = ⟨.ok .vnone, closeGuard st', ev⟩ := by
  unfold safeModify
  rw [h]
  rfl

theorem safeModify_of_exc (f : PyProc) (s st' : VerbState) (e : PyExc) (ev : List OutEvent)
    (h : f (openGuard s) = ⟨.exc e, st', ev⟩) :
    safeModify f s = ⟨.exc e, st', ev⟩ := by
  unfold safeModify
  rw [h]

/-! Concrete fixtures used by the claim theorems. -/

/-- Binding of the spec scenario: verb=INFO, before="start", after="done",
except=None, rethrow unset, bubble default (true), default sink options. -/
def c1Binding : Binding :=
  { verb := 1, msg_before := .mstr [.flit "start"], msg_after := .mstr [.flit "done"],
    msg_except := .mnone, rethrow := none, bubble := true, out_end := "\n", flush := true }

/-- The registry state with the active level set to INFO. -/
def infoState : VerbState :=
  { Verbosity.initState with attrs := dput Verbosity.initState.attrs "level" (.vint 1) }

/-- A wrapped function that raises `ValueError("x")`. -/
def raiseX : PyFun := fun _ s => (.exc (.valueError "x"), s)

/-- A wrapped function that returns `42`. -/
def ret42 : PyFun := fun _ s => (.ok (.vint 42), s)

/-- A wrapped function that returns `None` and leaves the state alone. -/
def retNone : PyFun := fun _ s => (.ok .vnone, s)

/-- Like `c1Binding` but with `bubble=False` and no messages. -/
def c2Binding : Binding :=
  { verb := 1, msg_before := .mnone, msg_after := .mnone,
    msg_except := .mnone, rethrow := none, bubble := false, out_end := "\n", flush := true }

/-- A binding whose level (DEBUG) does not match `initState`'s level (NONE). -/
def c3Binding : Binding :=
  { verb := 2, msg_before := .mstr [.flit "start"], msg_after := .mstr [.flit "done"],
    msg_except := .mnone, rethrow := none, bubble := true, out_end := "\n", flush := true }

/-! The claims. -/

/-- Claim C1 counterexample: with verb=INFO, before="start", after="done",
except=None, rethrow unset, active level INFO, and the wrapped function
raising `ValueError("x")`, the decorated call does NOT propagate the
exception: `rethrow = True if rethrow is not None else False` normalizes an
unset rethrow to False, so the call returns normally (with None). -/
theorem c1_counterexample :
    (Verbosity.printer c1Binding raiseX [] infoState).res = .ok .vnone ∧
    ¬ (Verbosity.printer c1Binding raiseX [] infoState).res = .exc (.valueError "x") := by
  decide

/-- Claim C1 (amended): same binding and state; "start\n" is written (and
flushed) and the exception is swallowed — the decorated call returns normally
with None, and no "done" is written. -/
theorem c1_amended :
    Verbosity.printer c1Binding raiseX [] infoState =
      ⟨.ok .vnone, infoState, [.write "start", .write "\n", .flushEv]⟩ := by
  decide

/-- Claim C3 counterexample: with a non-matching level (verb=DEBUG, active
level NONE), the undecorated function returns 42 but the decorated call
returns None — the wrapper discards the wrapped function's return value, so
the return values are not identical. -/
theorem c3_counterexample :
    (Verbosity.printer c3Binding ret42 [] Verbosity.initState).res = .ok .vnone ∧
    (ret42 [] Verbosity.initState).1 = .ok (.vint 42) ∧
    ¬ (Verbosity.printer c3Binding ret42 [] Verbosity.initState).res
        = (ret42 [] Verbosity.initState).1 := by
  decide

/-- Claim C3 (amended): when the binding's level does not equal the active
level, no before/after/except dispatch occurs (no sink events), any exception
of the wrapped function propagates identically, and its state effects are
those of the bare call (modulo the guard toggling) — but the return value is
discarded: a successful decorated call returns None. -/
theorem c3_amended (b : Binding) (func : PyFun) (args : List PyObj) (s : VerbState)
    (l : PyObj)
    (hlv : dget s.attrs "level" = some l)
    (hne : pyEqIntObj b.verb l = false) :
    Verbosity.printer b func args s =
      (match func args (openGuard s) with
       | (.ok _, s') => ⟨.ok .vnone, closeGuard s', []⟩
       | (.exc e, s') => ⟨.exc e, s', []⟩) := by
  have hlv' : dget (openGuard s).attrs "level" = some l := hlv
  unfold Verbosity.printer safeModify Verbosity.wrapperBody
  rw [hlv']
  simp only [hne, Bool.false_eq_true, if_false]
  rcases hf : func args (openGuard s) with ⟨r, s'⟩
  cases r <;> simp [closeGuard]

/-- Claim C3 witness: the amended theorem applied to the concrete non-matching
binding and `ret42` at the initial state. -/
theorem c3_amended_witness :
    Verbosity.printer c3Binding ret42 [] Verbosity.initState =
      ⟨.ok .vnone, closeGuard (openGuard Verbosity.initState), []⟩ :=
  c3_amended c3Binding ret42 [] Verbosity.initState (.vint 0) rfl rfl

/-- Claim C4 (code_bug evaluation): `set`'s body computes and returns the
prior level (0), and the level is assigned (to 1); but `_safe_verbosity_modify`
has no `return`, so the caller of `Verbosity.set` receives None, not the prior
level — contradicting `set`'s own docstring ("Returns the old verbosity
level."). -/
theorem c4_code_bug_eval :
    (Verbosity.setBody (.pint 1) true (openGuard Verbosity.initState)).res = .ok (.vint 0) ∧
    (Verbosity.set (.pint 1) true Verbosity.initState).res = .ok .vnone ∧
    ¬ (Verbosity.set (.pint 1) true Verbosity.initState).res = .ok (.vint 0) ∧
    activeLevel (Verbosity.set (.pint 1) true Verbosity.initState).st = some (.vint 1) := by
  decide

/-- Claim C5 counterexample: `set` with an argument that is neither a string
nor an integer raises `TypeError` and leaves the mutation gate OPEN —
`_safe_verbosity_modify` has no `try`/`finally`, so the gate is not restored
on the raising path. -/
theorem c5_counterexample :
    (Verbosity.set .pother true Verbosity.initState).res =
      .exc (.typeError "new_verbosity has to be int or str") ∧
    (Verbosity.set .pother true Verbosity.initState).st.isInternalOp = true := by
  decide

/-- Claim C5 (amended): `set`, `add` and `remove` restore the mutation gate to
closed whenever they complete normally; on an exceptional exit the gate is
left open (see the counterexample). -/
theorem c5_amended (a₁ a₂ a₃ a₄ : PArg) (verify : Bool) (s₁ s₂ s₃ : VerbState) :
    (∀ o : PyObj, (Verbosity.set a₁ verify s₁).res = .ok o →
        (Verbosity.set a₁ verify s₁).st.isInternalOp = false) ∧
    (∀ o : PyObj, (Verbosity.add a₂ a₃ s₂).res = .ok o →
        (Verbosity.add a₂ a₃ s₂).st.isInternalOp = false) ∧
    (∀ o : PyObj, (Verbosity.remove a₄ s₃).res = .ok o →
        (Verbosity.remove a₄ s₃).st.isInternalOp = false) :=
  ⟨fun o h => safeModify_ok_guard _ s₁ o h,
   fun o h => safeModify_ok_guard _ s₂ o h,
   fun o h => safeModify_ok_guard _ s₃ o h⟩

/-- Claim C5 witness: the amended theorem applied to concrete successful
`set`/`add`/`remove` calls on the initial state. -/
theorem c5_amended_witness :
    (Verbosity.set (.pint 1) true Verbosity.initState).st.isInternalOp = false ∧
    (Verbosity.add (.pstr "TRACE") (.pint 7) Verbosity.initState).st.isInternalOp = false ∧
    (Verbosity.remove (.pint 2) Verbosity.initState).st.isInternalOp = false :=
  ⟨(c5_amended (.pint 1) (.pstr "TRACE") (.pint 7) (.pint 2) true
      Verbosity.initState Verbosity.initState Verbosity.initState).1 .vnone (by decide),
   (c5_amended (.pint 1) (.pstr "TRACE") (.pint 7) (.pint 2) true
      Verbosity.initState Verbosity.initState Verbosity.initState).2.1 .vnone (by decide),
   (c5_amended (.pint 1) (.pstr "TRACE") (.pint 7) (.pint 2) true
      Verbosity.initState Verbosity.initState Verbosity.initState).2.2 .vnone (by decide)⟩

/-- Claim C6 counterexample: `set("nope", verify=False)` with an unregistered
name is NOT a no-op — the failed lookup result (None) is assigned to the
level: the active level changes from 0 to None. -/
theorem c6_counterexample :
    activeLevel (Verbosity.set (.pstr "nope") false Verbosity.initState).st = some .vnone ∧
    activeLevel Verbosity.initState = some (.vint 0) := by
  decide

/-- Claim C6 (amended): for every string that is not a registered level name,
`set(name, verify=false)` assigns the unresolved lookup result — Python None —
to the active level (and the call returns None); the prior level is lost, so
this is an assignment of None, not a no-op. -/
theorem c6_amended (name : String) (s : VerbState) (l : PyObj)
    (h₁ : dget s.vmap (.ks name) = none)
    (h₂ : dget s.attrs "level" = some l) :
    Verbosity.set (.pstr name) false s =
      ⟨.ok .vnone, closeGuard (setLevelAttr (openGuard s) .vnone), []⟩ := by
  simp only [Verbosity.set, safeModify, Verbosity.setBody, checkedSetattr,
    openGuard, closeGuard, setLevelAttr, optKeyToObj, h₁, h₂]
  simp [h₂]

/-- Claim C6 witness: the amended theorem at `name = "nope"` on the initial
state. -/
theorem c6_amended_witness :
    Verbosity.set (.pstr "nope") false Verbosity.initState =
      ⟨.ok .vnone, closeGuard (setLevelAttr (openGuard Verbosity.initState) .vnone), []⟩ :=
  c6_amended "nope" Verbosity.initState (.vint 0) rfl rfl

/-- Claim C7 counterexample: for the message string "{0}" with the positional
argument "", the formatted (post-substitution) string is empty, yet the line
terminator IS written — the code tests `len(msg)` on the template, not on the
formatted string, so "appends the terminator exactly when the formatted string
is non-empty" is false. -/
theorem c7_counterexample :
    formatT [.farg 0] [.vstr ""] = .ok "" ∧
    handleMsg (.mstr [.farg 0]) [.vstr ""] none "\n" false =
      (.ok .vnone, [.write "", .write "\n"]) :=
  ⟨rfl, rfl⟩

/-- Claim C7 (amended): for a string messageSpec whose formatting succeeds,
the dispatcher writes the formatted string (the write occurs even when it is
empty), appends the line terminator exactly when the TEMPLATE (the message
string as written, pre-substitution) is non-empty, and flushes exactly when
`flush` is true. -/
theorem c7_amended (t : Template) (args : List PyObj) (e : Option PyExc)
    (endStr : String) (fl : Bool) (outStr : String)
    (h : formatT t args = .ok outStr) :
    handleMsg (.mstr t) args e endStr fl =
      (.ok .vnone,
        [OutEvent.write outStr]
          ++ (if (renderT t).length > 0 then [OutEvent.write endStr] else [])
          ++ (if fl = true then [OutEvent.flushEv] else [])) := by
  simp only [handleMsg]
  rw [h]

/-- Claim C7 witness: the amended theorem at the template "hi" with no
arguments, terminator "\n" and flush on. -/
theorem c7_amended_witness :
    handleMsg (.mstr [.flit "hi"]) [] none "\n" true =
      (.ok .vnone, [.write "hi", .write "\n", .flushEv]) := by
  have h := c7_amended [.flit "hi"] [] none "\n" true "hi" rfl
  simpa using h

/-- Evaluation of a successful `add(name, v)`: for a fresh name, a fresh
value, and `v ≠ -1`, the level is exposed as a class attribute, appended to
the list, and both directions are appended to the map; the gate ends closed
and the caller receives None. -/
theorem add_eval (s : VerbState) (name : String) (v : Int)
    (h₁ : dget s.vmap (.ks name) = none)
    (h₂ : dget s.vmap (.ki v) = none)
    (h₃ : ¬ v = -1) :
    Verbosity.add (.pstr name) (.pint v) s =
      ⟨.ok .vnone,
        { isInternalOp := false
          verbosities := s.verbosities ++ [v]
          vmap := s.vmap ++ [(.ks name, .ki v), (.ki v, .ks name)]
          attrs := dput s.attrs name (.vint v) }, []⟩ := by
  have hm1 : dput s.vmap (.ks name) (.ki v) = s.vmap ++ [(.ks name, .ki v)] :=
    dput_eq_append _ _ _ h₁
  have hm2 : dget (s.vmap ++ [((.ks name : PKey), (.ki v : PKey))]) (.ki v) = none := by
    rw [dget_append_left_none _ _ _ h₂]; simp [dget]
  have hm3 : dput (s.vmap ++ [((.ks name : PKey), (.ki v : PKey))]) (.ki v) (.ks name)
      = s.vmap ++ [(.ks name, .ki v), (.ki v, .ks name)] := by
    rw [dput_eq_append _ _ _ hm2, List.append_assoc]; rfl
  simp only [Verbosity.add, safeModify, Verbosity.addBody, checkedSetattr, openGuard,
    closeGuard, h₁, h₂, h₃, Option.isSome_none, Bool.false_eq_true, if_false, hm1, hm3]
  simp [hm1, hm3]

/-- Claim C8: for a fresh name, a fresh value, and value ≠ -1, `add(name, v)`
followed by `remove` of that level — by name or by value — restores the
mapping returned by `get_verbosities` exactly to its snapshot from before the
add. -/
theorem c8_add_remove_roundtrip (s : VerbState) (name : String) (v : Int)
    (h₁ : dget s.vmap (.ks name) = none)
    (h₂ : dget s.vmap (.ki v) = none)
    (h₃ : ¬ v = -1) :
    Verbosity.get_verbosities (Verbosity.remove (.pstr name)
        (Verbosity.add (.pstr name) (.pint v) s).st).st = Verbosity.get_verbosities s ∧
    Verbosity.get_verbosities (Verbosity.remove (.pint v)
        (Verbosity.add (.pstr name) (.pint v) s).st).st = Verbosity.get_verbosities s := by
  have hA : dget (dput s.attrs name (PyObj.vint v)) name = some (.vint v) :=
    dget_dput_self _ _ _
  have hL1 : dget (s.vmap ++ [((.ks name : PKey), (.ki v : PKey)),
      ((.ki v : PKey), (.ks name : PKey))]) (.ks name) = some (.ki v) := by
    rw [dget_append_left_none _ _ _ h₁]; simp [dget]
  have hL2 : dget (s.vmap ++ [((.ks name : PKey), (.ki v : PKey)),
      ((.ki v : PKey), (.ks name : PKey))]) (.ki v) = some (.ks name) := by
    rw [dget_append_left_none _ _ _ h₂]; simp [dget]
  have hP1 : dpop (s.vmap ++ [((.ks name : PKey), (.ki v : PKey)),
      ((.ki v : PKey), (.ks name : PKey))]) (.ki v) = s.vmap ++ [(.ks name, .ki v)] := by
    rw [dpop_append_left_none _ _ _ h₂]; simp [dpop]
  have hP2 : dpop (s.vmap ++ [((.ks name : PKey), (.ki v : PKey))]) (.ks name) = s.vmap := by
    rw [dpop_append_left_none _ _ _ h₁]; simp [dpop]
  rw [add_eval s name v h₁ h₂ h₃]
  constructor
  · simp only [Verbosity.get_verbosities, Verbosity.remove, safeModify,
      Verbosity.removeBody, Verbosity.del_key, Verbosity.delKeyBody, openGuard, closeGuard,
      hA, hL1, hP1, hP2]
    simp [hA, hL1, hP1, hP2]
  · simp only [Verbosity.get_verbosities, Verbosity.remove, safeModify,
      Verbosity.removeBody, Verbosity.del_key, Verbosity.delKeyBody, openGuard, closeGuard,
      hA, hL2, hP1, hP2]
    simp [hA, hL2, hP1, hP2]

/-- Claim C8 witness: add then remove of TRACE=7 on the initial state, removed
once by name and once by value. -/
theorem c8_add_remove_roundtrip_witness :
    Verbosity.get_verbosities (Verbosity.remove (.pstr "TRACE")
        (Verbosity.add (.pstr "TRACE") (.pint 7) Verbosity.initState).st).st
      = Verbosity.get_verbosities Verbosity.initState ∧
    Verbosity.get_verbosities (Verbosity.remove (.pint 7)
        (Verbosity.add (.pstr "TRACE") (.pint 7) Verbosity.initState).st).st
      = Verbosity.get_verbosities Verbosity.initState :=
  c8_add_remove_roundtrip Verbosity.initState "TRACE" 7 (by decide) (by decide) (by decide)

/-- Claim C10: if "level" is not a registered level name and v is a fresh
integer other than -1, `add("level", v)` succeeds and — because `add` exposes
the new level with `setattr(cls, name, value)` — overwrites the `level` class
attribute: the active verbosity level becomes v. -/
theorem c10_add_level_overwrites (s : VerbState) (v : Int)
    (h₁ : dget s.vmap (.ks "level") = none)
    (h₂ : dget s.vmap (.ki v) = none)
    (h₃ : ¬ v = -1) :
    (Verbosity.add (.pstr "level") (.pint v) s).res = .ok .vnone ∧
    activeLevel (Verbosity.add (.pstr "level") (.pint v) s).st = some (.vint v) := by
  rw [add_eval s "level" v h₁ h₂ h₃]
  refine ⟨rfl, ?_⟩
  show dget (dput s.attrs "level" (.vint v)) "level" = some (.vint v)
  exact dget_dput_self _ _ _

/-- Claim C10 witness: `add("level", 42)` on the initial state sets the active
level to 42. -/
theorem c10_add_level_overwrites_witness :
    (Verbosity.add (.pstr "level") (.pint 42) Verbosity.initState).res = .ok .vnone ∧
    activeLevel (Verbosity.add (.pstr "level") (.pint 42) Verbosity.initState).st
      = some (.vint 42) :=
  c10_add_level_overwrites Verbosity.initState 42 (by decide) (by decide) (by decide)

/-- Claim C2 counterexample: with a matched binding, `bubble=False`, and the
wrapped function raising, the active level is NOT restored after the call —
the restore `cls.level = _v` sits inside the `try` after the call, so on the
exception path the level stays at the suspension sentinel -1 (it was 1
before the call). -/
theorem c2_counterexample :
    activeLevel (Verbosity.printer c2Binding raiseX [] infoState).st = some (.vint (-1)) ∧
    activeLevel infoState = some (.vint 1) := by
  decide

/-- Claim C2 (amended): for a matched call with `bubble=false`, the wrapped
function is invoked on a state whose level is the suspension sentinel -1
(so no inner decorator whose verb is a registered level matches); if the
wrapped call returns normally the level is restored to its original value,
but if it raises (here with except=None and rethrow unset, so the exception
is swallowed) the level is NOT restored: it keeps whatever value the wrapped
call left (-1 if untouched). -/
theorem c2_amended (b : Binding) (args : List PyObj) (s : VerbState)
    (l oB oA : PyObj) (evB evA : List OutEvent)
    (hbub : b.bubble = false)
    (hlv : dget s.attrs "level" = some l)
    (hmatch : pyEqIntObj b.verb l = true)
    (hB : handleMsg b.msg_before args none "\n" b.flush = (.ok oB, evB))
    (hA : handleMsg b.msg_after args none "\n" b.flush = (.ok oA, evA)) :
    (∀ (func : PyFun) (r : PyObj) (s' : VerbState),
        func args (setLevelAttr (openGuard s) (.vint (-1))) = (.ok r, s') →
        s'.isInternalOp = true →
        Verbosity.printer b func args s =
          ⟨.ok .vnone, closeGuard (setLevelAttr s' l), evB ++ evA⟩) ∧
    (∀ (func : PyFun) (e : PyExc) (s' : VerbState),
        b.msg_except = .mnone →
        b.rethrow = none →
        func args (setLevelAttr (openGuard s) (.vint (-1))) = (.exc e, s') →
        Verbosity.printer b func args s = ⟨.ok .vnone, closeGuard s', evB⟩) := by
  constructor
  · intro func r s' hf hg
    have hw : Verbosity.wrapperBody b func args (openGuard s) =
        ⟨.ok .vnone, setLevelAttr s' l, evB ++ evA⟩ := by
      simp only [openGuard, setLevelAttr] at hf
      simp [Verbosity.wrapperBody, checkedSetattr, openGuard, setLevelAttr,
        hlv, hmatch, hB, hA, hbub, hf, hg]
    exact safeModify_of_ok _ _ _ _ _ hw
  · intro func e s' hx hr hf
    have hw : Verbosity.wrapperBody b func args (openGuard s) =
        ⟨.ok .vnone, s', evB⟩ := by
      simp only [openGuard, setLevelAttr] at hf
      simp [Verbosity.wrapperBody, checkedSetattr, openGuard, setLevelAttr,
        hlv, hmatch, hB, hbub, hf, hx, hr, handleMsg_mnone]
    exact safeModify_of_ok _ _ _ _ _ hw

/-- Claim C2 witness: the amended theorem on `c2Binding` at `infoState`, once
with a normally-returning wrapped function (level restored to 1) and once
with `raiseX` (level left at -1). -/
theorem c2_amended_witness :
    Verbosity.printer c2Binding retNone [] infoState =
      ⟨.ok .vnone,
        closeGuard (setLevelAttr (setLevelAttr (openGuard infoState) (.vint (-1))) (.vint 1)),
        []⟩ ∧
    Verbosity.printer c2Binding raiseX [] infoState =
      ⟨.ok .vnone, closeGuard (setLevelAttr (openGuard infoState) (.vint (-1))), []⟩ :=
  ⟨(c2_amended c2Binding [] infoState (.vint 1) .vnone .vnone [] [] rfl rfl rfl rfl rfl).1
      retNone .vnone _ rfl rfl,
   (c2_amended c2Binding [] infoState (.vint 1) .vnone .vnone [] [] rfl rfl rfl rfl rfl).2
      raiseX (.valueError "x") _ rfl rfl rfl⟩

/-- A wrapped user function that performs a direct assignment
`Verbosity.attr = value` (routed through the metaclass `__setattr__`). -/
def directAssign (name : String) (v : PyObj) : PyFun := fun _ s =>
  match checkedSetattr name v s with
  | ⟨r, s', _⟩ => (r, s')

/-- Claim C9: while the wrapper of a decorated function executes — whether or
not the level matches — the mutation gate is open, so a direct assignment to
a Verbosity class attribute made from inside the wrapped user function
succeeds (no StateProtectionError) and the attribute is written; the whole
decorated call completes normally. (`name ≠ "level"` keeps the written
attribute out of the way of the wrapper's own level save/restore.) -/
theorem c9_guard_open_during_call (b : Binding) (args : List PyObj) (s : VerbState)
    (l oB oA : PyObj) (evB evA : List OutEvent) (name : String) (v : PyObj)
    (hlv : dget s.attrs "level" = some l)
    (hname : ¬ name = "level")
    (hB : handleMsg b.msg_before args none "\n" b.flush = (.ok oB, evB))
    (hA : handleMsg b.msg_after args none "\n" b.flush = (.ok oA, evA)) :
    (Verbosity.printer b (directAssign name v) args s).res = .ok .vnone ∧
    dget (Verbosity.printer b (directAssign name v) args s).st.attrs name = some v := by
  have hob : ¬ ("level" = name) := fun hh => hname hh.symm
  by_cases hm : pyEqIntObj b.verb l = true
  · by_cases hbu : b.bubble = false
    · have hw : Verbosity.wrapperBody b (directAssign name v) args (openGuard s) =
          ⟨.ok .vnone,
            VerbState.mk true s.verbosities s.vmap
              (dput (dput (dput s.attrs "level" (.vint (-1))) name v) "level" l),
            evB ++ evA⟩ := by
        simp [Verbosity.wrapperBody, directAssign, checkedSetattr, openGuard,
          hlv, hm, hB, hA, hbu]
      have heval := safeModify_of_ok _ _ _ _ _ hw
      rw [show Verbosity.printer b (directAssign name v) args s
            = safeModify (Verbosity.wrapperBody b (directAssign name v) args) s from rfl,
          heval]
      refine ⟨rfl, ?_⟩
      show dget (dput (dput (dput s.attrs "level" (.vint (-1))) name v) "level" l) name
            = some v
      rw [dget_dput_ne _ _ _ _ hob, dget_dput_self]
    · have hw : Verbosity.wrapperBody b (directAssign name v) args (openGuard s) =
          ⟨.ok .vnone,
            VerbState.mk true s.verbosities s.vmap
              (dput (dput s.attrs name v) "level" l),
            evB ++ evA⟩ := by
        simp [Verbosity.wrapperBody, directAssign, checkedSetattr, openGuard,
          hlv, hm, hB, hA, hbu]
      have heval := safeModify_of_ok _ _ _ _ _ hw
      rw [show Verbosity.printer b (directAssign name v) args s
            = safeModify (Verbosity.wrapperBody b (directAssign name v) args) s from rfl,
          heval]
      refine ⟨rfl, ?_⟩
      show dget (dput (dput s.attrs name v) "level" l) name = some v
      rw [dget_dput_ne _ _ _ _ hob, dget_dput_self]
  · have hm' : pyEqIntObj b.verb l = false := by
      simpa using hm
    have hw : Verbosity.wrapperBody b (directAssign name v) args (openGuard s) =
        ⟨.ok .vnone, VerbState.mk true s.verbosities s.vmap (dput s.attrs name v), []⟩ := by
      simp [Verbosity.wrapperBody, directAssign, checkedSetattr, openGuard, hlv, hm']
    have heval := safeModify_of_ok _ _ _ _ _ hw
    rw [show Verbosity.printer b (directAssign name v) args s
          = safeModify (Verbosity.wrapperBody b (directAssign name v) args) s from rfl,
        heval]
    exact ⟨rfl, dget_dput_self _ _ _⟩

/-- Claim C9 witness: the matched scenario binding at `infoState`, with the
wrapped function directly assigning `Verbosity.FOO = 9`: the call succeeds
and the attribute is written. -/
theorem c9_guard_open_during_call_witness :
    (Verbosity.printer c1Binding (directAssign "FOO" (.vint 9)) [] infoState).res
      = .ok .vnone ∧
    dget (Verbosity.printer c1Binding (directAssign "FOO" (.vint 9)) [] infoState).st.attrs
      "FOO" = some (.vint 9) :=
  c9_guard_open_during_call c1Binding [] infoState (.vint 1) .vnone .vnone
    [.write "start", .write "\n", .flushEv] [.write "done", .write "\n", .flushEv]
    "FOO" (.vint 9) rfl (by decide) rfl rfl
